import Mathlib

/-!
Verification of the subset-sampling and data-splitting logic of
`src/distiller/apputils/data_loaders.py`.

Modelling conventions:
* Python lists become Lean `List`s; a dataset is an indexable collection,
  modelled as a `List` of samples.
* The float ratios (`effective_size`, `validation_split`) are modelled as
  exact rationals `ℚ`, matching the mathematical contract stated in the
  module's documentation (`floor(n * r)` etc.).
* `raise ValueError(...)` becomes an `Except String` result.
* Randomness (`torch.randperm`, `np.random.permutation`, `np.random.shuffle`)
  is modelled by passing the produced permutation explicitly as an argument;
  theorems quantify over all permutations of the relevant index range.
* The side effects of deterministic mode (global seeding, worker init hooks)
  and the actual tensor/batching machinery of the external framework are out
  of scope; only the parts of the framework the sampling logic relies on
  (`torch.utils.data.SubsetRandomSampler`, `DataLoader` as a record of its
  construction arguments) are modelled.
-/

/-- Decidable equality for `Except` results, so that concrete runs of the
embedded functions can be checked by `decide`. -/
instance {ε α : Type} [DecidableEq ε] [DecidableEq α] :
    DecidableEq (Except ε α) := fun a b =>
  match a, b with
  | .error e₁, .error e₂ => decidable_of_iff (e₁ = e₂) (by simp)
  | .error _, .ok _ => .isFalse fun h => Except.noConfusion h
  | .ok _, .error _ => .isFalse fun h => Except.noConfusion h
  | .ok a₁, .ok a₂ => decidable_of_iff (a₁ = a₂) (by simp)

/-- A tensor, modelled by its shape only (the verified claims touch only
`unsqueeze(0)`/`size()`, which act on shapes). -/
structure Tensor where
  shape : List ℕ
deriving DecidableEq, Repr

/-- `t.unsqueeze(0)`: add a batch dimension of size 1 in front. -/
def Tensor.unsqueeze0 (t : Tensor) : Tensor := ⟨1 :: t.shape⟩

/-- `t.size()`: the shape. -/
def Tensor.size (t : Tensor) : List ℕ := t.shape

/-- A dataset sample: an (input tensor, integer label) pair. -/
abbrev Sample := Tensor × ℕ

/-- `DATASETS_NAMES` (line 31 of `data_loaders.py`). -/
def DATASETS_NAMES : List String := ["imagenet", "cifar10"]

/-- `_get_subset_length(data_source, effective_size)` from
`data_loaders.py` lines 202-205:

    if effective_size <= 0 or effective_size > 1:
        raise ValueError("effective_size must be in (0..1]")
    return int(np.floor(len(data_source) * effective_size))
-/
def get_subset_length {α : Type} (data_source : List α) (effective_size : ℚ) :
    Except String ℕ :=
  if effective_size ≤ 0 ∨ 1 < effective_size then
    .error "effective_size must be in (0..1]"
  else
    .ok (Int.toNat ⌊(data_source.length : ℚ) * effective_size⌋)

/-- `__split_list(l, ratio)` from `data_loaders.py` lines 172-174:

    split_idx = int(np.floor(ratio * len(l)))
    return l[:split_idx], l[split_idx:]
-/
def split_list {α : Type} (l : List α) (ratio : ℚ) : List α × List α :=
  (l.take (Int.toNat ⌊ratio * (l.length : ℚ)⌋),
   l.drop (Int.toNat ⌊ratio * (l.length : ℚ)⌋))

/-- `SwitchingSubsetRandomSampler` (lines 177-199): holds a reference to the
data source and the subset length computed at construction. -/
structure SwitchingSubsetRandomSampler (α : Type) where
  data_source : List α
  subset_length : ℕ
deriving DecidableEq, Repr

/-- `SwitchingSubsetRandomSampler.__init__` (lines 187-189); the call to
`_get_subset_length` can raise, hence the `Except`. -/
def SwitchingSubsetRandomSampler.make {α : Type} (data_source : List α)
    (effective_size : ℚ) : Except String (SwitchingSubsetRandomSampler α) :=
  match get_subset_length data_source effective_size with
  | .error e => .error e
  | .ok len => .ok ⟨data_source, len⟩

/-- `SwitchingSubsetRandomSampler.__iter__` (lines 191-196):

    indices = torch.randperm(len(self.data_source))
    subset_indices = indices[: self.subset_length]
    return (self.data_source[i] for i in subset_indices)

`perm` stands for the fresh permutation produced by `torch.randperm` at this
enumeration; theorems assume `perm.Perm (List.range data_source.length)`.
Under that assumption every position is in bounds, so the `getD` default is
never consulted. -/
def SwitchingSubsetRandomSampler.iter {α : Type} [Inhabited α]
    (s : SwitchingSubsetRandomSampler α) (perm : List ℕ) : List α :=
  (perm.take s.subset_length).map fun i => s.data_source.getD i default

/-- `SwitchingSubsetRandomSampler.__len__` (lines 198-199). -/
def SwitchingSubsetRandomSampler.len {α : Type}
    (s : SwitchingSubsetRandomSampler α) : ℕ :=
  s.subset_length

/-- `torch.utils.data.SubsetRandomSampler` (external PyTorch library, used by
the fixed-subset branch of `_get_sampler`): stores a list of indices. -/
structure SubsetRandomSampler where
  indices : List ℕ
deriving DecidableEq, Repr

/-- `SubsetRandomSampler.__iter__` from the PyTorch library:

    return (self.indices[i] for i in torch.randperm(len(self.indices)))

`perm` stands for the fresh permutation drawn by `torch.randperm` at this
enumeration; theorems assume `perm.Perm (List.range indices.length)`. -/
def SubsetRandomSampler.iter (s : SubsetRandomSampler) (perm : List ℕ) :
    List ℕ :=
  perm.map fun i => s.indices.getD i 0

/-- `SubsetRandomSampler.__len__` from the PyTorch library. -/
def SubsetRandomSampler.len (s : SubsetRandomSampler) : ℕ :=
  s.indices.length

/-- A sampler as returned by `_get_sampler`: either the fixed-subset
`torch.utils.data.SubsetRandomSampler` or the module's own
`SwitchingSubsetRandomSampler` (over a data source of indices). -/
inductive SamplerU where
  | fixed : SubsetRandomSampler → SamplerU
  | switching : SwitchingSubsetRandomSampler ℕ → SamplerU
deriving DecidableEq, Repr

/-- `__len__` of a sampler as returned by `_get_sampler`: dispatches to
`SubsetRandomSampler.__len__` or `SwitchingSubsetRandomSampler.__len__`. -/
def SamplerU.len : SamplerU → ℕ
  | .fixed s => s.len
  | .switching s => s.len

/-- `_get_sampler(data_source, effective_size, fixed_subset)` from
`data_loaders.py` lines 208-214:

    if fixed_subset:
        subset_length = _get_subset_length(data_source, effective_size)
        indices = np.random.permutation(len(data_source))
        subset_indices = indices[:subset_length]
        return torch.utils.data.SubsetRandomSampler(subset_indices)
    return SwitchingSubsetRandomSampler(data_source, effective_size)

`construction_perm` stands for the permutation of `range(len(data_source))`
produced by `np.random.permutation` at construction time (used only in the
fixed branch); theorems assume
`construction_perm.Perm (List.range data_source.length)`. -/
def get_sampler (data_source : List ℕ) (effective_size : ℚ)
    (fixed_subset : Bool) (construction_perm : List ℕ) :
    Except String SamplerU :=
  if fixed_subset then
    match get_subset_length data_source effective_size with
    | .error e => .error e
    | .ok subset_length => .ok (.fixed ⟨construction_perm.take subset_length⟩)
  else
    match SwitchingSubsetRandomSampler.make data_source effective_size with
    | .error e => .error e
    | .ok s => .ok (.switching s)

/-- `__image_size(dataset)` from `data_loaders.py` lines 158-160:

    return dataset[0][0].unsqueeze(0).size()

Indexing an empty dataset at position 0 raises `IndexError`. -/
def image_size (dataset : List Sample) : Except String (List ℕ) :=
  match dataset with
  | [] => .error "IndexError: list index out of range"
  | s :: _ => .ok s.1.unsqueeze0.size

/-- A `torch.utils.data.DataLoader`, modelled as the record of the
construction arguments the claims refer to (dataset, sampler, batching
configuration). -/
structure Loader where
  dataset : List Sample
  sampler : SamplerU
  batch_size : ℕ
  num_workers : ℕ
deriving DecidableEq, Repr

/-- `DataLoader.__len__` from the PyTorch library: the number of batches,
`ceil(len(sampler) / batch_size)` (the loaders here are built with the
default `drop_last=False`; PyTorch requires a positive batch size).
`bool(loader)` — Python truthiness, used by the `or` on line 282 of the
source — is `len(loader) != 0`, since `DataLoader` defines `__len__` and no
`__bool__`. -/
def Loader.len (l : Loader) : ℕ :=
  (l.sampler.len + l.batch_size - 1) / l.batch_size

/-- The 4-tuple returned by `get_data_loaders`. -/
structure LoadersResult where
  train_loader : Loader
  valid_loader : Loader
  test_loader : Loader
  input_shape : List ℕ
deriving DecidableEq, Repr

/-- `get_data_loaders(datasets_fn, data_dir, batch_size, num_workers, ...)`
from `data_loaders.py` lines 217-282.  `datasets` stands for the pair
`datasets_fn(data_dir)` (the external dataset provider's result);
`shuffled` stands for `indices = list(range(num_train))` after the in-place
`np.random.shuffle(indices)` (theorems that need it assume
`shuffled.Perm (List.range datasets.1.length)`); `train_perm`, `valid_perm`
and `test_perm` stand for the `np.random.permutation` draws made inside
`_get_sampler` when `fixed_subset` is set.  The `deterministic` flag's
process-wide seeding side effect is out of scope and the flag is otherwise
unused, exactly as in the source (it only changes RNG seeding, which is
abstracted into the permutation arguments).  The steps appear in source
order: train sampler/loader, optional validation loader (built only when
`valid_indices` is non-empty, i.e. the Python truthiness test), test
sampler/loader, input-shape inference, and finally the returned tuple
`(train_loader, valid_loader or test_loader, test_loader, input_shape)`.
The `or` on line 282 is Python truthiness: `valid_loader` is falsy both
when it is `None` (no validation loader was built) and when it is a built
`DataLoader` with zero batches (`DataLoader.__len__` returns 0, see
`Loader.len`), and in both cases the test loader is returned in its
place. -/
def get_data_loaders (datasets : List Sample × List Sample)
    (batch_size num_workers : ℕ) (validation_split : ℚ)
    (deterministic : Bool)
    (effective_train_size effective_valid_size effective_test_size : ℚ)
    (fixed_subset : Bool)
    (shuffled train_perm valid_perm test_perm : List ℕ) :
    Except String LoadersResult :=
  match get_sampler (split_list shuffled validation_split).2
      effective_train_size fixed_subset train_perm with
  | .error e => .error e
  | .ok train_sampler =>
    match (if (split_list shuffled validation_split).1 = [] then
             Except.ok Option.none
           else
             match get_sampler (split_list shuffled validation_split).1
                 effective_valid_size fixed_subset valid_perm with
             | .error e => .error e
             | .ok s =>
               Except.ok (some (Loader.mk datasets.1 s batch_size num_workers))) with
    | .error e => .error e
    | .ok opt_valid =>
      match get_sampler (List.range datasets.2.length) effective_test_size
          fixed_subset test_perm with
      | .error e => .error e
      | .ok test_sampler =>
        match image_size datasets.1 with
        | .error e => .error e
        | .ok shape =>
          .ok ⟨Loader.mk datasets.1 train_sampler batch_size num_workers,
               (match opt_valid with
                | none =>
                  Loader.mk datasets.2 test_sampler batch_size num_workers
                | some vl =>
                  if vl.len = 0 then
                    Loader.mk datasets.2 test_sampler batch_size num_workers
                  else vl),
               Loader.mk datasets.2 test_sampler batch_size num_workers,
               shape⟩

/-- `load_data(dataset, data_dir, batch_size, workers, ...)` from
`data_loaders.py` lines 34-78:

    if dataset not in DATASETS_NAMES:
        raise ValueError('load_data does not support dataset %s" % dataset')
    datasets_fn = cifar10_get_datasets if dataset == "cifar10" else imagenet_get_datasets
    return get_data_loaders(datasets_fn, ...)

`cifar10_datasets` / `imagenet_datasets` stand for the results of the two
external dataset providers applied to `data_dir`.  (The error string is the
literal from the source, whose misplaced quote puts the `%s" % dataset`
inside the string.) -/
def load_data (dataset : String)
    (cifar10_datasets imagenet_datasets : List Sample × List Sample)
    (batch_size workers : ℕ) (validation_split : ℚ) (deterministic : Bool)
    (effective_train_size effective_valid_size effective_test_size : ℚ)
    (fixed_subset : Bool)
    (shuffled train_perm valid_perm test_perm : List ℕ) :
    Except String LoadersResult :=
  if dataset ∉ DATASETS_NAMES then
    .error "load_data does not support dataset %s\" % dataset"
  else
    get_data_loaders
      (if dataset = "cifar10" then cifar10_datasets else imagenet_datasets)
      batch_size workers validation_split deterministic
      effective_train_size effective_valid_size effective_test_size
      fixed_subset shuffled train_perm valid_perm test_perm

/-- A concrete 2-example training set used in witness instantiations. -/
def sampleTrainSet : List Sample := [(Tensor.mk [3], 0), (Tensor.mk [3], 1)]

/-- A concrete 1-example test set used in witness instantiations. -/
def sampleTestSet : List Sample := [(Tensor.mk [3], 0)]

/-- The loader record produced by `get_data_loaders` on the concrete
witness inputs: training set `sampleTrainSet`, test set `sampleTestSet`,
batch size 1, 0 workers, `validation_split = 1/2`, all effective sizes 1,
switching samplers, shuffle result `[1, 0]`. -/
def sampleLoadersResult : LoadersResult :=
  ⟨⟨sampleTrainSet, .switching ⟨[0], 1⟩, 1, 0⟩,
   ⟨sampleTrainSet, .switching ⟨[1], 1⟩, 1, 0⟩,
   ⟨sampleTestSet, .switching ⟨[0], 1⟩, 1, 0⟩,
   [1, 3]⟩

/-! ### Helper lemmas -/

/-- Reading off all positions of `l` in order reproduces `l`. -/
theorem range_map_getD {α : Type} (l : List α) (d : α) :
    (List.range l.length).map (fun i => l.getD i d) = l := by
  induction l with
  | nil => simp
  | cons a t ih =>
    rw [List.length_cons, List.range_succ_eq_map, List.map_cons, List.map_map]
    refine congrArg (a :: ·) ?_
    calc List.map ((fun i => (a :: t).getD i d) ∘ Nat.succ) (List.range t.length)
        = List.map (fun i => t.getD i d) (List.range t.length) := by
          simp only [Function.comp_def, Nat.succ_eq_add_one, List.getD_cons_succ]
    _ = t := ih

/-- Reading a list at a permutation of all its positions yields a
permutation of the list. -/
theorem perm_map_getD {α : Type} {p : List ℕ} (l : List α) (d : α)
    (hp : p.Perm (List.range l.length)) :
    (p.map fun i => l.getD i d).Perm l := by
  have h1 : (p.map fun i => l.getD i d).Perm
      ((List.range l.length).map fun i => l.getD i d) := hp.map _
  rw [range_map_getD l d] at h1
  exact h1

/-- With a ratio in `(0,1]`, `_get_subset_length` succeeds and returns
the floor value. -/
theorem get_subset_length_ok {α : Type} (l : List α) (r : ℚ)
    (h0 : 0 < r) (h1 : r ≤ 1) :
    get_subset_length l r = .ok (Int.toNat ⌊(l.length : ℚ) * r⌋) := by
  unfold get_subset_length
  rw [if_neg]
  push_neg
  exact ⟨h0, h1⟩

/-- The floor of `n * r` is non-negative for `0 ≤ r`. -/
theorem floor_len_mul_nonneg (n : ℕ) (r : ℚ) (h0 : 0 ≤ r) :
    0 ≤ ⌊(n : ℚ) * r⌋ :=
  Int.floor_nonneg.mpr (mul_nonneg (Nat.cast_nonneg n) h0)

/-- For `r ≤ 1`, `⌊n * r⌋ ≤ n`. -/
theorem floor_len_mul_le (n : ℕ) (r : ℚ) (h1 : r ≤ 1) :
    ⌊(n : ℚ) * r⌋ ≤ (n : ℤ) := by
  have hle : (n : ℚ) * r ≤ (n : ℚ) := by
    calc (n : ℚ) * r ≤ (n : ℚ) * 1 :=
          mul_le_mul_of_nonneg_left h1 (Nat.cast_nonneg n)
    _ = (n : ℚ) := mul_one _
  calc ⌊(n : ℚ) * r⌋ ≤ ⌊(n : ℚ)⌋ := Int.floor_le_floor hle
  _ = (n : ℤ) := Int.floor_natCast n

/-- For `r ≤ 1`, the computed subset length is at most the collection
length. -/
theorem toNat_floor_len_mul_le (n : ℕ) (r : ℚ) (h1 : r ≤ 1) :
    Int.toNat ⌊(n : ℚ) * r⌋ ≤ n :=
  Int.toNat_le.mpr (floor_len_mul_le n r h1)

/-! ### Claims -/

/-- Claim C3: for every collection and every ratio `r` with `0 < r ≤ 1`,
`_get_subset_length` returns `⌊n * r⌋` as an integer (`n` being the
collection length), and that value is at most `n`.  The computation is
modelled as a pure function, so it has no side effects. -/
theorem c3_subset_length_floor {α : Type} (l : List α) (r : ℚ)
    (h0 : 0 < r) (h1 : r ≤ 1) :
    ∃ k : ℕ, get_subset_length l r = .ok k ∧
      (k : ℤ) = ⌊(l.length : ℚ) * r⌋ ∧ k ≤ l.length := by
  refine ⟨Int.toNat ⌊(l.length : ℚ) * r⌋, get_subset_length_ok l r h0 h1,
    ?_, ?_⟩
  · exact Int.toNat_of_nonneg (floor_len_mul_nonneg l.length r h0.le)
  · exact toNat_floor_len_mul_le l.length r h1

/-- Witness for C3 at the concrete input `n = 4`, `r = 1/2`. -/
theorem c3_subset_length_floor_witness :
    ∃ k : ℕ, get_subset_length ([0, 1, 2, 3] : List ℕ) (mkRat 1 2) = .ok k ∧
      (k : ℤ) = ⌊(([0, 1, 2, 3] : List ℕ).length : ℚ) * mkRat 1 2⌋ ∧
      k ≤ ([0, 1, 2, 3] : List ℕ).length :=
  c3_subset_length_floor [0, 1, 2, 3] (mkRat 1 2) (by decide) (by decide)

/-- Claim C4: `_get_subset_length` produces the `InvalidArgument`
(`ValueError`) outcome exactly when `r ≤ 0` or `r > 1`; in the `Except`
model the error is the immediate value of the call, i.e. raised eagerly,
not deferred. -/
theorem c4_subset_length_error_iff {α : Type} (l : List α) (r : ℚ) :
    (∃ e, get_subset_length l r = .error e) ↔ (r ≤ 0 ∨ 1 < r) := by
  constructor
  · rintro ⟨e, he⟩
    by_contra hc
    rw [get_subset_length, if_neg hc] at he
    exact Except.noConfusion he
  · intro h
    exact ⟨_, by rw [get_subset_length, if_pos h]⟩

/-- Claim C5: for `v ∈ [0,1]`, `__split_list` returns the prefix of length
`⌊v * len(l)⌋` as the validation part and the remaining suffix as the
training part; the two parts occupy disjoint position ranges (they are the
take/drop at one split point) and concatenate back to the original list;
for `v = 0` the validation part is empty and the training part is the whole
input. -/
theorem c5_split_list_spec {α : Type} (l : List α) (v : ℚ)
    (h0 : 0 ≤ v) (h1 : v ≤ 1) :
    (split_list l v).1.length = Int.toNat ⌊v * (l.length : ℚ)⌋ ∧
    (split_list l v).1 = l.take (Int.toNat ⌊v * (l.length : ℚ)⌋) ∧
    (split_list l v).2 = l.drop (Int.toNat ⌊v * (l.length : ℚ)⌋) ∧
    (split_list l v).1 ++ (split_list l v).2 = l ∧
    (v = 0 → (split_list l v).1 = [] ∧ (split_list l v).2 = l) := by
  have hk : Int.toNat ⌊v * (l.length : ℚ)⌋ ≤ l.length := by
    rw [mul_comm]
    exact toNat_floor_len_mul_le l.length v h1
  refine ⟨?_, rfl, rfl, List.take_append_drop _ l, ?_⟩
  · show (l.take _).length = _
    rw [List.length_take, min_eq_left hk]
  · intro hv
    subst hv
    constructor
    · show l.take _ = []
      simp
    · show l.drop _ = l
      simp

/-- Witness for C5 at the concrete input `l = [0..9]`, `v = 1/10`. -/
theorem c5_split_list_spec_witness :
    (split_list ([0, 1, 2, 3, 4, 5, 6, 7, 8, 9] : List ℕ) (mkRat 1 10)).1.length =
      Int.toNat ⌊mkRat 1 10 * (([0, 1, 2, 3, 4, 5, 6, 7, 8, 9] : List ℕ).length : ℚ)⌋ ∧
    (split_list ([0, 1, 2, 3, 4, 5, 6, 7, 8, 9] : List ℕ) (mkRat 1 10)).1 =
      ([0, 1, 2, 3, 4, 5, 6, 7, 8, 9] : List ℕ).take
        (Int.toNat ⌊mkRat 1 10 * (([0, 1, 2, 3, 4, 5, 6, 7, 8, 9] : List ℕ).length : ℚ)⌋) ∧
    (split_list ([0, 1, 2, 3, 4, 5, 6, 7, 8, 9] : List ℕ) (mkRat 1 10)).2 =
      ([0, 1, 2, 3, 4, 5, 6, 7, 8, 9] : List ℕ).drop
        (Int.toNat ⌊mkRat 1 10 * (([0, 1, 2, 3, 4, 5, 6, 7, 8, 9] : List ℕ).length : ℚ)⌋) ∧
    (split_list ([0, 1, 2, 3, 4, 5, 6, 7, 8, 9] : List ℕ) (mkRat 1 10)).1 ++
      (split_list ([0, 1, 2, 3, 4, 5, 6, 7, 8, 9] : List ℕ) (mkRat 1 10)).2 =
      ([0, 1, 2, 3, 4, 5, 6, 7, 8, 9] : List ℕ) ∧
    (mkRat 1 10 = 0 →
      (split_list ([0, 1, 2, 3, 4, 5, 6, 7, 8, 9] : List ℕ) (mkRat 1 10)).1 = [] ∧
      (split_list ([0, 1, 2, 3, 4, 5, 6, 7, 8, 9] : List ℕ) (mkRat 1 10)).2 =
        ([0, 1, 2, 3, 4, 5, 6, 7, 8, 9] : List ℕ)) :=
  c5_split_list_spec [0, 1, 2, 3, 4, 5, 6, 7, 8, 9] (mkRat 1 10)
    (by decide) (by decide)

/-- Claim C8: a switching sampler constructed with a valid effective size
reports as its length the fixed `subset_length` computed at construction,
namely `⌊n * r⌋` for `n` the data-source length (so at most `n`, and equal
to `n` only when the floor is).  The sampler is an immutable value in this
model and `__iter__` takes it read-only, so the reported length cannot
change across iterations. -/
theorem c8_sampler_len {α : Type} (ds : List α) (r : ℚ)
    (s : SwitchingSubsetRandomSampler α)
    (h0 : 0 < r) (h1 : r ≤ 1)
    (h : SwitchingSubsetRandomSampler.make ds r = .ok s) :
    s.len = s.subset_length ∧
    (s.len : ℤ) = ⌊(ds.length : ℚ) * r⌋ ∧
    s.len ≤ ds.length := by
  rw [SwitchingSubsetRandomSampler.make, get_subset_length_ok ds r h0 h1] at h
  cases h
  refine ⟨rfl, ?_, ?_⟩
  · exact Int.toNat_of_nonneg (floor_len_mul_nonneg ds.length r h0.le)
  · exact toNat_floor_len_mul_le ds.length r h1

unseal Rat.mul in
/-- Witness for C8 at the concrete input `ds = [0,1,2,3]`, `r = 1/2`. -/
theorem c8_sampler_len_witness :
    (SwitchingSubsetRandomSampler.mk ([0, 1, 2, 3] : List ℕ) 2).len =
      (SwitchingSubsetRandomSampler.mk ([0, 1, 2, 3] : List ℕ) 2).subset_length ∧
    ((SwitchingSubsetRandomSampler.mk ([0, 1, 2, 3] : List ℕ) 2).len : ℤ) =
      ⌊(([0, 1, 2, 3] : List ℕ).length : ℚ) * mkRat 1 2⌋ ∧
    (SwitchingSubsetRandomSampler.mk ([0, 1, 2, 3] : List ℕ) 2).len ≤
      ([0, 1, 2, 3] : List ℕ).length :=
  c8_sampler_len [0, 1, 2, 3] (mkRat 1 2) ⟨[0, 1, 2, 3], 2⟩
    (by decide) (by decide) (by rfl)

unseal Rat.mul in
/-- Counterexample for C2 as stated: the switching sampler over the data
source `[5, 5]` (length 2) with effective size `1`, iterated with the
legitimate permutation `[0, 1]` of `range 2`, yields `[5, 5]`, whose
elements are not pairwise distinct.  (The sampler yields
`data_source[i]`, so duplicated entries of the data source reappear.) -/
theorem c2_counterexample :
    SwitchingSubsetRandomSampler.make ([5, 5] : List ℕ) 1 = .ok ⟨[5, 5], 2⟩ ∧
    ([0, 1] : List ℕ).Perm (List.range 2) ∧
    SwitchingSubsetRandomSampler.iter ⟨([5, 5] : List ℕ), 2⟩ [0, 1] = [5, 5] ∧
    ¬ ([5, 5] : List ℕ).Nodup :=
  ⟨by decide, by decide, by decide, by decide⟩

/-- Claim C2 (amended): for every data source `ds` and effective size
`r ∈ (0,1]`, each iteration of the switching sampler takes a fresh
permutation of `range(len(ds))` (modelled as the argument `p`), keeps its
first `subset_length` entries — pairwise-distinct positions — and yields the
data-source entries at those positions: exactly `subset_length` of them.
The yielded elements themselves are pairwise distinct whenever the entries
of the data source are pairwise distinct (as they are at every call site in
this module, where data sources are lists of distinct indices); when
`subset_length = 0` the produced sequence is empty.  Each iteration call is
given its own fresh permutation, independent of previous calls. -/
theorem c2_switching_iter_spec {α : Type} [Inhabited α]
    (ds : List α) (r : ℚ) (s : SwitchingSubsetRandomSampler α)
    (h0 : 0 < r) (h1 : r ≤ 1)
    (hs : SwitchingSubsetRandomSampler.make ds r = .ok s)
    (p : List ℕ) (hp : p.Perm (List.range ds.length)) :
    s.data_source = ds ∧
    (s.iter p).length = s.subset_length ∧
    (p.take s.subset_length).Nodup ∧
    (ds.Nodup → (s.iter p).Nodup) ∧
    (s.subset_length = 0 → s.iter p = []) := by
  rw [SwitchingSubsetRandomSampler.make, get_subset_length_ok ds r h0 h1] at hs
  cases hs
  have hk : Int.toNat ⌊(ds.length : ℚ) * r⌋ ≤ ds.length :=
    toNat_floor_len_mul_le ds.length r h1
  have hplen : p.length = ds.length := hp.length_eq.trans (List.length_range _)
  have hpn : p.Nodup := hp.nodup_iff.mpr (List.nodup_range _)
  have htake : (p.take (Int.toNat ⌊(ds.length : ℚ) * r⌋)).Nodup :=
    List.Nodup.sublist (List.take_sublist _ _) hpn
  have hmem : ∀ i ∈ p.take (Int.toNat ⌊(ds.length : ℚ) * r⌋),
      i < ds.length := fun i hi =>
    List.mem_range.mp (hp.mem_iff.mp (List.mem_of_mem_take hi))
  refine ⟨rfl, ?_, htake, ?_, ?_⟩
  · show ((p.take _).map _).length = _
    rw [List.length_map, List.length_take, min_eq_left (hplen ▸ hk)]
  · intro hds
    refine List.Nodup.map_on ?_ htake
    intro i hi j hj hf
    have hib : i < ds.length := hmem i hi
    have hjb : j < ds.length := hmem j hj
    rw [List.getD_eq_getElem ds default hib,
      List.getD_eq_getElem ds default hjb] at hf
    exact hds.getElem_inj_iff.mp hf
  · intro h0k
    show (p.take _).map _ = []
    rw [h0k, List.take_zero, List.map_nil]

unseal Rat.mul in
/-- Witness for C2 (amended) at the concrete input `ds = [3, 4, 5]`,
`r = 2/3` (so `subset_length = 2`) and the permutation `p = [2, 0, 1]`. -/
theorem c2_switching_iter_spec_witness :
    (SwitchingSubsetRandomSampler.mk ([3, 4, 5] : List ℕ) 2).data_source =
      [3, 4, 5] ∧
    ((SwitchingSubsetRandomSampler.mk ([3, 4, 5] : List ℕ) 2).iter
        [2, 0, 1]).length =
      (SwitchingSubsetRandomSampler.mk ([3, 4, 5] : List ℕ) 2).subset_length ∧
    (([2, 0, 1] : List ℕ).take
      (SwitchingSubsetRandomSampler.mk ([3, 4, 5] : List ℕ) 2).subset_length).Nodup ∧
    (([3, 4, 5] : List ℕ).Nodup →
      ((SwitchingSubsetRandomSampler.mk ([3, 4, 5] : List ℕ) 2).iter
        [2, 0, 1]).Nodup) ∧
    ((SwitchingSubsetRandomSampler.mk ([3, 4, 5] : List ℕ) 2).subset_length = 0 →
      (SwitchingSubsetRandomSampler.mk ([3, 4, 5] : List ℕ) 2).iter [2, 0, 1] =
        []) :=
  c2_switching_iter_spec [3, 4, 5] (mkRat 2 3) ⟨[3, 4, 5], 2⟩
    (by decide) (by decide) (by rfl) [2, 0, 1] (by decide)

unseal Rat.mul in
/-- Counterexample for C1 as stated: the fixed-subset sampler built by
`_get_sampler` over a 2-element data source with effective size 1 (so the
fixed subset is `[0, 1]`) is a `torch.utils.data.SubsetRandomSampler`,
which re-permutes the stored indices on every enumeration.  With the
legitimate `torch.randperm` draws `[0, 1]` for the first iteration and
`[1, 0]` for the second, the two successive iterations yield `[0, 1]` and
`[1, 0]`: the same values but not the same order, refuting "identical index
sequences (same values in the same order)". -/
theorem c1_counterexample :
    get_sampler [10, 20] 1 true [0, 1] = .ok (.fixed ⟨[0, 1]⟩) ∧
    ([0, 1] : List ℕ).Perm (List.range 2) ∧
    ([1, 0] : List ℕ).Perm (List.range 2) ∧
    SubsetRandomSampler.iter ⟨[0, 1]⟩ [0, 1] ≠
      SubsetRandomSampler.iter ⟨[0, 1]⟩ [1, 0] :=
  ⟨by decide, by decide, by decide, by decide⟩

/-- Claim C1 (amended): for every data source and valid effective size,
two successive iterations over the fixed-subset sampler yield the same
multiset of indices — the fixed subset chosen once at construction — but
each iteration independently re-randomizes the order (the underlying
`SubsetRandomSampler` draws a fresh permutation per enumeration), so the
two sequences are permutations of one another rather than necessarily
identical. -/
theorem c1_fixed_sampler_same_multiset (ds : List ℕ) (r : ℚ)
    (cperm : List ℕ) (s : SubsetRandomSampler)
    (h : get_sampler ds r true cperm = .ok (.fixed s))
    (p₁ p₂ : List ℕ)
    (h₁ : p₁.Perm (List.range s.indices.length))
    (h₂ : p₂.Perm (List.range s.indices.length)) :
    (s.iter p₁).Perm (s.iter p₂) :=
  (perm_map_getD s.indices 0 h₁).trans (perm_map_getD s.indices 0 h₂).symm

unseal Rat.mul in
/-- Witness for C1 (amended) at the concrete sampler of the counterexample
input, with the two iteration permutations `[0, 1]` and `[1, 0]`. -/
theorem c1_fixed_sampler_same_multiset_witness :
    (SubsetRandomSampler.iter ⟨[0, 1]⟩ [0, 1]).Perm
      (SubsetRandomSampler.iter ⟨[0, 1]⟩ [1, 0]) :=
  c1_fixed_sampler_same_multiset [10, 20] 1 [0, 1] ⟨[0, 1]⟩ (by decide)
    [0, 1] [1, 0] (by decide) (by decide)

/-- Claim C9: the set of indices yielded by a fixed-subset sampler is the
same on every iteration: membership is fixed at construction (the first
`subset_length` entries of the single `np.random.permutation` draw made by
`_get_sampler`) and never changes; each iteration yields some ordering of
exactly that fixed subset (a permutation of the stored index list). -/
theorem c9_fixed_subset_membership (ds : List ℕ) (r : ℚ)
    (cperm : List ℕ) (s : SubsetRandomSampler) (k : ℕ)
    (hk : get_subset_length ds r = .ok k)
    (h : get_sampler ds r true cperm = .ok (.fixed s)) :
    s.indices = cperm.take k ∧
    ∀ p : List ℕ, p.Perm (List.range s.indices.length) →
      (s.iter p).Perm s.indices := by
  rw [get_sampler, if_pos rfl, hk] at h
  cases h
  exact ⟨rfl, fun p hp => perm_map_getD _ 0 hp⟩

unseal Rat.mul in
/-- Witness for C9 at the concrete input `ds = [10, 20, 30]`, `r = 2/3`
(so `k = 2`), construction permutation `[2, 0, 1]`, iterated with the
permutation `[1, 0]`. -/
theorem c9_fixed_subset_membership_witness :
    (SubsetRandomSampler.mk ([2, 0] : List ℕ)).indices =
      ([2, 0, 1] : List ℕ).take 2 ∧
    ∀ p : List ℕ,
      p.Perm (List.range (SubsetRandomSampler.mk ([2, 0] : List ℕ)).indices.length) →
      ((SubsetRandomSampler.mk ([2, 0] : List ℕ)).iter p).Perm
        (SubsetRandomSampler.mk ([2, 0] : List ℕ)).indices :=
  c9_fixed_subset_membership [10, 20, 30] (mkRat 2 3) [2, 0, 1] ⟨[2, 0]⟩ 2
    (by decide) (by decide)

unseal Rat.mul in
/-- Counterexample for C6 as stated: with training set `sampleTrainSet`
(2 examples), shuffle result `[1, 0]` and `validation_split = 1/2`, the
validation index set is the non-empty `[1]`; but `effective_valid_size =
1/2` floors the validation subset length to `floor(1 * 1/2) = 0`, so the
validation loader that is built has zero batches.  Python's `or` on line
282 tests truthiness via `DataLoader.__len__`, so the *test* loader is
returned as the validation handle: the returned validation loader is not a
loader over the training dataset, refuting the non-empty-split half of the
claim. -/
theorem c6_counterexample :
    (split_list [1, 0] (mkRat 1 2)).1 ≠ [] ∧
    get_data_loaders (sampleTrainSet, sampleTestSet) 1 0 (mkRat 1 2) false
      1 (mkRat 1 2) 1 false [1, 0] [] [] [] =
      .ok ⟨⟨sampleTrainSet, .switching ⟨[0], 1⟩, 1, 0⟩,
           ⟨sampleTestSet, .switching ⟨[0], 1⟩, 1, 0⟩,
           ⟨sampleTestSet, .switching ⟨[0], 1⟩, 1, 0⟩,
           [1, 3]⟩ ∧
    sampleTestSet ≠ sampleTrainSet :=
  ⟨by decide, by decide, by decide⟩

/-- Claim C6 (amended): whenever `get_data_loaders` succeeds, if the
validation split produced an empty validation index set then the returned
validation loader is the test loader itself (the same value); if the
validation index set is non-empty, a validation loader is built over the
*training* dataset with its own sampler (the one `_get_sampler` builds
from the validation indices) and the shared batch/worker configuration,
and that built loader is returned as the validation handle exactly when it
is non-empty (at least one batch); when it has zero batches, the
`or`-truthiness of line 282 substitutes the test loader.  Either way
callers always receive a valid (non-`None`) validation handle. -/
theorem c6_valid_loader_fallback
    (datasets : List Sample × List Sample) (b w : ℕ) (v : ℚ) (det : Bool)
    (ets evs ess : ℚ) (f : Bool) (sh tp vp sp : List ℕ)
    (res : LoadersResult)
    (h : get_data_loaders datasets b w v det ets evs ess f sh tp vp sp =
      .ok res) :
    ((split_list sh v).1 = [] → res.valid_loader = res.test_loader) ∧
    ((split_list sh v).1 ≠ [] →
      ∃ vs, get_sampler (split_list sh v).1 evs f vp = .ok vs ∧
        res.valid_loader =
          (if (Loader.mk datasets.1 vs b w).len = 0 then res.test_loader
           else Loader.mk datasets.1 vs b w)) := by
  unfold get_data_loaders at h
  rcases hts : get_sampler (split_list sh v).2 ets f tp with e | ts
  · simp only [hts] at h
    exact Except.noConfusion h
  simp only [hts] at h
  by_cases hvi : (split_list sh v).1 = []
  · simp only [if_pos hvi] at h
    rcases hss : get_sampler (List.range datasets.2.length) ess f sp with e | tss
    · simp only [hss] at h
      exact Except.noConfusion h
    simp only [hss] at h
    rcases himg : image_size datasets.1 with e | shape
    · simp only [himg] at h
      exact Except.noConfusion h
    simp only [himg] at h
    cases h
    exact ⟨fun _ => rfl, fun hne => absurd hvi hne⟩
  · simp only [if_neg hvi] at h
    rcases hvs : get_sampler (split_list sh v).1 evs f vp with e | vs
    · simp only [hvs] at h
      exact Except.noConfusion h
    simp only [hvs] at h
    rcases hss : get_sampler (List.range datasets.2.length) ess f sp with e | tss
    · simp only [hss] at h
      exact Except.noConfusion h
    simp only [hss] at h
    rcases himg : image_size datasets.1 with e | shape
    · simp only [himg] at h
      exact Except.noConfusion h
    simp only [himg] at h
    cases h
    exact ⟨fun heq => absurd heq hvi, fun _ => ⟨vs, rfl, rfl⟩⟩

unseal Rat.mul in
/-- Witness for C6 (amended) on a concrete successful run: training set
`sampleTrainSet` (2 examples), test set `sampleTestSet` (1 example),
`validation_split = 1/2`, all effective sizes 1, switching samplers,
shuffle result `[1, 0]` (so the validation index set is the non-empty
`[1]` and the built validation loader has one batch), producing the record
`sampleLoadersResult`. -/
theorem c6_valid_loader_fallback_witness :
    ((split_list [1, 0] (mkRat 1 2)).1 = [] →
      sampleLoadersResult.valid_loader = sampleLoadersResult.test_loader) ∧
    ((split_list [1, 0] (mkRat 1 2)).1 ≠ [] →
      ∃ vs, get_sampler (split_list [1, 0] (mkRat 1 2)).1 1 false [] =
          .ok vs ∧
        sampleLoadersResult.valid_loader =
          (if (Loader.mk (sampleTrainSet, sampleTestSet).1 vs 1 0).len = 0 then
            sampleLoadersResult.test_loader
           else Loader.mk (sampleTrainSet, sampleTestSet).1 vs 1 0)) :=
  c6_valid_loader_fallback (sampleTrainSet, sampleTestSet) 1 0 (mkRat 1 2)
    false 1 1 1 false [1, 0] [] [] [] sampleLoadersResult (by decide)

/-- Claim C7: for every dataset name outside the two supported keys,
`load_data` immediately returns the `ValueError` (with the source's literal
message); in the `Except` model the error is the whole result, so no
dataset, sampler or loader is constructed and nothing partial is
returned. -/
theorem c7_load_data_unsupported (dataset : String)
    (hds : dataset ∉ DATASETS_NAMES)
    (cifar10_datasets imagenet_datasets : List Sample × List Sample)
    (b w : ℕ) (v : ℚ) (det : Bool) (ets evs ess : ℚ) (f : Bool)
    (sh tp vp sp : List ℕ) :
    load_data dataset cifar10_datasets imagenet_datasets b w v det
      ets evs ess f sh tp vp sp =
      .error "load_data does not support dataset %s\" % dataset" := by
  rw [load_data, if_pos hds]

/-- Witness for C7 at the concrete unsupported name `"mnist"`. -/
theorem c7_load_data_unsupported_witness :
    load_data "mnist" ([], []) ([], []) 1 0 (mkRat 1 10) false 1 1 1 false
      [] [] [] [] =
      .error "load_data does not support dataset %s\" % dataset" :=
  c7_load_data_unsupported "mnist" (by decide) ([], []) ([], []) 1 0
    (mkRat 1 10) false 1 1 1 false [] [] [] []

/-- Claim C10: `get_data_loaders` needs a non-empty training dataset: the
input-shape inference indexes the training dataset at position 0, so for a
training dataset `x :: rest` every successful run returns the sample shape
with a prepended batch dimension of 1, while for an empty training dataset
the run never succeeds (the indexing fails and the model returns an
error). -/
theorem c10_input_shape (x : Sample) (rest : List Sample)
    (test_dataset : List Sample) (b w : ℕ) (v : ℚ) (det : Bool)
    (ets evs ess : ℚ) (f : Bool) (sh tp vp sp : List ℕ) :
    (∀ res, get_data_loaders (x :: rest, test_dataset) b w v det ets evs ess
        f sh tp vp sp = .ok res →
      res.input_shape = 1 :: x.1.shape) ∧
    (∀ res, get_data_loaders ([], test_dataset) b w v det ets evs ess
        f sh tp vp sp ≠ .ok res) := by
  constructor
  · intro res h
    unfold get_data_loaders at h
    rcases hts : get_sampler (split_list sh v).2 ets f tp with e | ts
    · simp only [hts] at h
      exact Except.noConfusion h
    simp only [hts] at h
    rcases hov : (if (split_list sh v).1 = [] then Except.ok Option.none
        else match get_sampler (split_list sh v).1 evs f vp with
          | .error e => .error e
          | .ok s => Except.ok (some (Loader.mk (x :: rest, test_dataset).1 s b w)))
        with e | ov
    · simp only [hov] at h
      exact Except.noConfusion h
    simp only [hov] at h
    rcases hss : get_sampler (List.range test_dataset.length) ess f sp with e | tss
    · simp only [hss] at h
      exact Except.noConfusion h
    simp only [hss] at h
    simp only [image_size] at h
    cases h
    rfl
  · intro res h
    unfold get_data_loaders at h
    rcases hts : get_sampler (split_list sh v).2 ets f tp with e | ts
    · simp only [hts] at h
      exact Except.noConfusion h
    simp only [hts] at h
    rcases hov : (if (split_list sh v).1 = [] then Except.ok Option.none
        else match get_sampler (split_list sh v).1 evs f vp with
          | .error e => .error e
          | .ok s => Except.ok (some (Loader.mk ([], test_dataset).1 s b w)))
        with e | ov
    · simp only [hov] at h
      exact Except.noConfusion h
    simp only [hov] at h
    rcases hss : get_sampler (List.range test_dataset.length) ess f sp with e | tss
    · simp only [hss] at h
      exact Except.noConfusion h
    simp only [hss] at h
    simp only [image_size] at h
    exact Except.noConfusion h

/-- Witness for C10: the empty-training-dataset conjunct at a concrete
instantiation (the run on the empty training dataset never returns `ok`). -/
theorem c10_input_shape_witness :
    get_data_loaders ([], [(⟨[3]⟩, 0)]) 1 0 (mkRat 1 10) false 1 1 1 false
      [] [] [] [] ≠
      .ok (LoadersResult.mk
        (Loader.mk [] (.fixed ⟨[]⟩) 1 0)
        (Loader.mk [] (.fixed ⟨[]⟩) 1 0)
        (Loader.mk [] (.fixed ⟨[]⟩) 1 0)
        []) :=
  (c10_input_shape (⟨[]⟩, 0) [] [(⟨[3]⟩, 0)] 1 0 (mkRat 1 10) false 1 1 1
      false [] [] [] []).2
    (LoadersResult.mk
      (Loader.mk [] (.fixed ⟨[]⟩) 1 0)
      (Loader.mk [] (.fixed ⟨[]⟩) 1 0)
      (Loader.mk [] (.fixed ⟨[]⟩) 1 0)
      [])
